import Mathlib

/-
Verification development for the window-SVG generator
(gen_window3.py, function generate_window_svg).

Lengths (Python floats) are modelled as exact rationals; bar counts
(Python ints) as integers; the mode string as a Lean String; the optional
center bar width as an Option.  The generator is embedded as a total
function returning Except String SvgDoc, mirroring the raise statements
of the source with error values carrying the source message text.
-/

namespace WindowGen

/-- The WindowSpec dataclass of gen_window3.py, field for field. -/
structure WindowSpec where
  width_mm : ℚ
  height_mm : ℚ
  frame_width_mm : ℚ
  num_vertical_bars : ℤ
  num_horizontal_bars : ℤ
  sash_bar_width_mm : ℚ
  arch_height_mm : ℚ := 0
  center_vertical_bar_width_mm : Option ℚ := none
  horizontal_distribution_mode : String := "even"
  frame_color : String := "#c7c7c7"
  glass_color : String := "#e6f2ff"
  bar_color : String := "#c7c7c7"
deriving DecidableEq

/-- An SVG path command with exact coordinates.  The source assembles
path data as text; we keep the command sequence structured and drop only
the text formatting.  Flags largeArc and sweep are kept as numbers. -/
inductive PathCmd where
  | moveTo (x y : ℚ)
  | arcTo (rx ry xrot : ℚ) (largeArc sweep : ℕ) (x y : ℚ)
  | lineTo (x y : ℚ)
  | close
deriving DecidableEq

/-- Mirrors the source function named with a leading underscore for the
outer arch path: M 0,arch_h A width/2,arch_h 0 0 1 width,arch_h
L width,height L 0,height Z. -/
def path_arch_outer (width height arch_h : ℚ) : List PathCmd :=
  [ PathCmd.moveTo 0 arch_h,
    PathCmd.arcTo (width/2) arch_h 0 0 1 width arch_h,
    PathCmd.lineTo width height,
    PathCmd.lineTo 0 height,
    PathCmd.close ]

/-- Mirrors the inner arch path builder of the source: inset by frame_w,
with the rise reduced to max 0 (arch_h - frame_w). -/
def path_arch_inner (width height frame_w arch_h : ℚ) : List PathCmd :=
  let wi := max 0 (width - 2 * frame_w)
  let hi := max 0 (height - 2 * frame_w)
  let arch_inner := max 0 (arch_h - frame_w)
  let x0 := frame_w
  let y0 := frame_w
  [ PathCmd.moveTo x0 (y0 + arch_inner),
    PathCmd.arcTo (wi/2) arch_inner 0 0 1 (x0 + wi) (y0 + arch_inner),
    PathCmd.lineTo (x0 + wi) (y0 + hi),
    PathCmd.lineTo x0 (y0 + hi),
    PathCmd.close ]

/-- Mirrors the compound rectangular frame path: outer rect then inner
rect, to be filled with the evenodd rule. -/
def compound_frame_path_rect (W H FW : ℚ) : List PathCmd :=
  [ PathCmd.moveTo 0 0, PathCmd.lineTo W 0, PathCmd.lineTo W H,
    PathCmd.lineTo 0 H, PathCmd.close,
    PathCmd.moveTo FW FW, PathCmd.lineTo (W - FW) FW,
    PathCmd.lineTo (W - FW) (H - FW), PathCmd.lineTo FW (H - FW),
    PathCmd.close ]

/-- Mirrors the compound arched frame path: outer arch path followed by
inner arch path. -/
def compound_frame_path_arch (W H FW AH : ℚ) : List PathCmd :=
  path_arch_outer W H AH ++ path_arch_inner W H FW AH

/-- A rect element as emitted by the generator. -/
structure SvgRect where
  x : ℚ
  y : ℚ
  width : ℚ
  height : ℚ
  fill : String
deriving DecidableEq

/-- A shape used for the glazing clip and the glass layer: a path when
the window is arched, a plain rect otherwise. -/
inductive Shape where
  | pathShape (d : List PathCmd)
  | rectShape (x y w h : ℚ)
deriving DecidableEq

/-- The assembled output document: size attributes, the clip shape, the
glass layer, the compound frame path, and the bar rects (vertical bars
first, then horizontal ones, in emission order) inside the clip group. -/
structure SvgDoc where
  width_attr : ℚ
  height_attr : ℚ
  clip_shape : Shape
  glass : Shape
  glass_fill : String
  frame_cmds : List PathCmd
  frame_fill : String
  bars : List SvgRect
deriving DecidableEq

/-- Line 68 of the source: CWB is the supplied center width if that
value is truthy, else BW.  Python truthiness sends both None and 0.0 to
the fallback BW. -/
def resolvedCWB (cw : Option ℚ) (bw : ℚ) : ℚ :=
  match cw with
  | none => bw
  | some c => if c = 0 then bw else c

/-- Message of the raise on the T <= 0 check below the chord bar. -/
def noSpaceMsg : String :=
  "No space below the chord bar to place horizontal bars."

/-- Message of the raise on the g < -1e-9 check (InsufficientSpace). -/
def insufficientSpaceMsg : String :=
  "Not enough space to place horizontal bars evenly between chord bar and bottom with the given sash_bar_width_mm. Reduce bar count/width or increase height."

/-- The upfront validation ladder, lines 70 to 81 of the source, first
failing check wins.  The final membership check (written in the source
as mode not in the pair, raise) is rendered with the branches swapped;
quote marks of the source mode message are omitted. -/
def validate (spec : WindowSpec) : Option String :=
  let W := spec.width_mm
  let H := spec.height_mm
  let FW := spec.frame_width_mm
  let NV := spec.num_vertical_bars
  let NH := spec.num_horizontal_bars
  let BW := spec.sash_bar_width_mm
  let AH := spec.arch_height_mm
  let CWB := resolvedCWB spec.center_vertical_bar_width_mm BW
  if W ≤ 0 ∨ H ≤ 0 then
    some "Window width and height must be positive."
  else if FW < 0 ∨ min W H ≤ 2 * FW then
    some "Frame width must be non-negative and less than half the window size."
  else if AH < 0 ∨ H < AH then
    some "Arch height must be between 0 and the total height."
  else if NV < 0 ∨ NH < 0 then
    some "Number of sash bars cannot be negative."
  else if BW < 0 ∨ CWB < 0 then
    some "Sash bar widths must be non-negative."
  else if spec.horizontal_distribution_mode = "even" ∨
          spec.horizontal_distribution_mode = "from_chord" then
    none
  else
    some "horizontal_distribution_mode must be even or from_chord."

/-- The conjunction of all upfront validation conditions, in positive
form. -/
def specValid (spec : WindowSpec) : Prop :=
  0 < spec.width_mm ∧ 0 < spec.height_mm ∧
  0 ≤ spec.frame_width_mm ∧
  2 * spec.frame_width_mm < min spec.width_mm spec.height_mm ∧
  0 ≤ spec.arch_height_mm ∧ spec.arch_height_mm ≤ spec.height_mm ∧
  0 ≤ spec.num_vertical_bars ∧ 0 ≤ spec.num_horizontal_bars ∧
  0 ≤ spec.sash_bar_width_mm ∧
  0 ≤ resolvedCWB spec.center_vertical_bar_width_mm spec.sash_bar_width_mm ∧
  (spec.horizontal_distribution_mode = "even" ∨
   spec.horizontal_distribution_mode = "from_chord")

/-- Vertical bars, lines 123 to 130 of the source: centerlines are the
NV+1 way even split of the aperture width; the middle bar of an odd
count gets the resolved center width; each bar spans y from 0 to H. -/
def verticalBars (spec : WindowSpec) : List SvgRect :=
  let W := spec.width_mm
  let H := spec.height_mm
  let FW := spec.frame_width_mm
  let NV := spec.num_vertical_bars
  let BW := spec.sash_bar_width_mm
  let CWB := resolvedCWB spec.center_vertical_bar_width_mm BW
  let inner_x := FW
  let inner_w := W - 2 * FW
  if 0 < NV ∧ 0 < inner_w then
    let x_gap := inner_w / ((NV : ℚ) + 1)
    (List.range NV.toNat).map (fun (i : ℕ) =>
      let cx := inner_x + ((i : ℚ) + 1) * x_gap
      let w := if NV % 2 = 1 ∧ (i : ℤ) = NV / 2 then CWB else BW
      { x := cx - w / 2, y := 0, width := w, height := H,
        fill := spec.bar_color })
  else []

/-- The y coordinate of the chord line: inner_y plus the inner arch
rise. -/
def chord_y (spec : WindowSpec) : ℚ :=
  spec.frame_width_mm + max 0 (spec.arch_height_mm - spec.frame_width_mm)

/-- Bottom edge of the chord bar, the start of the lower span. -/
def startY (spec : WindowSpec) : ℚ :=
  chord_y spec + spec.frame_width_mm

/-- Bottom edge of the aperture: inner_y + inner_h. -/
def bottomY (spec : WindowSpec) : ℚ :=
  spec.frame_width_mm + (spec.height_mm - 2 * spec.frame_width_mm)

/-- The available vertical span T between chord bar bottom and aperture
bottom. -/
def chordSpan (spec : WindowSpec) : ℚ :=
  bottomY spec - startY spec

/-- The computed gap g = (T - NH*BW) / (NH + 1) of the from_chord
distribution. -/
def chordGap (spec : WindowSpec) : ℚ :=
  (chordSpan spec - (spec.num_horizontal_bars : ℚ) * spec.sash_bar_width_mm) /
    ((spec.num_horizontal_bars : ℚ) + 1)

/-- The gap actually used for placement: the computed gap clamped from
below at 0 (line 158 of the source). -/
def usedChordGap (spec : WindowSpec) : ℚ :=
  max (chordGap spec) 0

/-- The chord bar rect: x 0, top edge on the chord line, full outer
width, thickness equal to the frame width. -/
def chordRect (spec : WindowSpec) : SvgRect :=
  { x := 0, y := chord_y spec, width := spec.width_mm,
    height := spec.frame_width_mm, fill := spec.bar_color }

/-- The NH bars distributed below the chord bar, k-th top edge at
start_y + g + k*(BW + g) with g the used (clamped) gap. -/
def chordDistBars (spec : WindowSpec) : List SvgRect :=
  let g := usedChordGap spec
  let BW := spec.sash_bar_width_mm
  (List.range spec.num_horizontal_bars.toNat).map (fun (k : ℕ) =>
    { x := 0, y := startY spec + g + (k : ℚ) * (BW + g),
      width := spec.width_mm, height := BW, fill := spec.bar_color })

/-- Even-mode horizontal bars, lines 166 to 171: centered on the NH+1
way even split of the aperture height. -/
def evenHBars (spec : WindowSpec) : List SvgRect :=
  let H := spec.height_mm
  let FW := spec.frame_width_mm
  let NH := spec.num_horizontal_bars
  let BW := spec.sash_bar_width_mm
  let inner_y := FW
  let inner_h := H - 2 * FW
  let y_gap := inner_h / ((NH : ℚ) + 1)
  (List.range NH.toNat).map (fun (j : ℕ) =>
    { x := 0, y := inner_y + ((j : ℚ) + 1) * y_gap - BW / 2,
      width := spec.width_mm, height := BW, fill := spec.bar_color })

/-- Horizontal bars, lines 133 to 171 of the source, with the two raise
statements of the from_chord branch as error values. -/
def horizontalBarsE (spec : WindowSpec) : Except String (List SvgRect) :=
  if 0 < spec.height_mm - 2 * spec.frame_width_mm then
    if spec.horizontal_distribution_mode = "from_chord" ∧
       0 < spec.arch_height_mm then
      if 0 < spec.num_horizontal_bars then
        if chordSpan spec ≤ 0 then Except.error noSpaceMsg
        else if chordGap spec < -(1/1000000000) then
          Except.error insufficientSpaceMsg
        else Except.ok (chordRect spec :: chordDistBars spec)
      else Except.ok [chordRect spec]
    else
      if 0 < spec.num_horizontal_bars then Except.ok (evenHBars spec)
      else Except.ok []
  else Except.ok []

/-- The generator, lines 59 to 175 of the source: validate, build the
glazing and frame shapes, then assemble the document with vertical bars
followed by horizontal bars inside the clip group. -/
def generate_window_svg (spec : WindowSpec) : Except String SvgDoc :=
  match validate spec with
  | some e => Except.error e
  | none =>
    let W := spec.width_mm
    let H := spec.height_mm
    let FW := spec.frame_width_mm
    let AH := spec.arch_height_mm
    let glazing : Shape :=
      if 0 < AH then Shape.pathShape (path_arch_inner W H FW AH)
      else Shape.rectShape FW FW (W - 2 * FW) (H - 2 * FW)
    let frameCmds :=
      if 0 < AH then compound_frame_path_arch W H FW AH
      else compound_frame_path_rect W H FW
    match horizontalBarsE spec with
    | Except.error e => Except.error e
    | Except.ok hbars =>
      Except.ok
        { width_attr := W, height_attr := H,
          clip_shape := glazing, glass := glazing,
          glass_fill := spec.glass_color,
          frame_cmds := frameCmds, frame_fill := spec.frame_color,
          bars := verticalBars spec ++ hbars }

/-- The gaps cut out of the interval from lo to hi by a list of
segments given as (start, length) pairs, in order: the gap before the
first segment, the gaps between consecutive segments, and the gap after
the last one.  A list of n segments yields n+1 gaps. -/
def gapsAlong (lo hi : ℚ) : List (ℚ × ℚ) → List ℚ
  | [] => [hi - lo]
  | (a, len) :: rest => (a - lo) :: gapsAlong (a + len) hi rest

/-- The extreme points contributed by one path command for bounding-box
purposes.  An arc endpoint contributes itself and the crown point ry
above it; for the upward half-ellipse arcs built by this generator this
is exact. -/
def cmdPoints : PathCmd → List (ℚ × ℚ)
  | PathCmd.moveTo x y => [(x, y)]
  | PathCmd.lineTo x y => [(x, y)]
  | PathCmd.arcTo _ ry _ _ _ x y => [(x, y), (x, y - ry)]
  | PathCmd.close => []

/-- Width and height of the bounding box of a command list. -/
def pathExtents (cmds : List PathCmd) : ℚ × ℚ :=
  match (cmds.map cmdPoints).flatten with
  | [] => (0, 0)
  | p :: ps =>
    (ps.foldl (fun m q => max m q.1) p.1 - ps.foldl (fun m q => min m q.1) p.1,
     ps.foldl (fun m q => max m q.2) p.2 - ps.foldl (fun m q => min m q.2) p.2)

/-
Concrete specifications used by counterexamples and witnesses.
-/

/-- A from_chord spec whose computed gap is -1/10^10: negative, but
inside the tolerance window of the g < -1e-9 check.  Span T = 60 and
NH * BW = 60 + 2/10^10. -/
def cexTolerance : WindowSpec :=
  { width_mm := 100, height_mm := 100, frame_width_mm := 10,
    num_vertical_bars := 0, num_horizontal_bars := 1,
    sash_bar_width_mm := 300000000001/5000000000,
    arch_height_mm := 20, center_vertical_bar_width_mm := none,
    horizontal_distribution_mode := "from_chord" }

/-- A from_chord spec whose bars clearly do not fit: T = 60, BW = 100. -/
def wInsufficient : WindowSpec :=
  { width_mm := 100, height_mm := 100, frame_width_mm := 10,
    num_vertical_bars := 0, num_horizontal_bars := 1,
    sash_bar_width_mm := 100,
    arch_height_mm := 20, center_vertical_bar_width_mm := none,
    horizontal_distribution_mode := "from_chord" }

/-- A spec supplying a center width of 0 with an odd vertical count. -/
def cexZeroCenter : WindowSpec :=
  { width_mm := 800, height_mm := 1200, frame_width_mm := 60,
    num_vertical_bars := 1, num_horizontal_bars := 0,
    sash_bar_width_mm := 30,
    arch_height_mm := 0, center_vertical_bar_width_mm := some 0,
    horizontal_distribution_mode := "even" }

/-- An even-mode spec whose single horizontal bar of width 200 is far
taller than the aperture height 80. -/
def cexTallBar : WindowSpec :=
  { width_mm := 100, height_mm := 100, frame_width_mm := 10,
    num_vertical_bars := 0, num_horizontal_bars := 1,
    sash_bar_width_mm := 200,
    arch_height_mm := 0, center_vertical_bar_width_mm := none,
    horizontal_distribution_mode := "even" }

/-- A well-fitting from_chord spec: T = 60, one bar of width 20,
gap 20. -/
def wChordFit : WindowSpec :=
  { width_mm := 100, height_mm := 100, frame_width_mm := 10,
    num_vertical_bars := 0, num_horizontal_bars := 1,
    sash_bar_width_mm := 20,
    arch_height_mm := 20, center_vertical_bar_width_mm := none,
    horizontal_distribution_mode := "from_chord" }

/-- Same corner as cexTolerance with other numbers: T = 120 and
NH * BW = 120 + 2/10^10, so the computed gap -1/10^10 is clamped to
zero. -/
def cexClampGap : WindowSpec :=
  { width_mm := 200, height_mm := 200, frame_width_mm := 20,
    num_vertical_bars := 0, num_horizontal_bars := 1,
    sash_bar_width_mm := 600000000001/5000000000,
    arch_height_mm := 40, center_vertical_bar_width_mm := none,
    horizontal_distribution_mode := "from_chord" }

/-- A from_chord spec passing every upfront validation whose span T is
0 while the computed gap is 0 (BW = 0): the gap rule alone would accept
it. -/
def cexFitButNoSpace : WindowSpec :=
  { width_mm := 300, height_mm := 300, frame_width_mm := 30,
    num_vertical_bars := 1, num_horizontal_bars := 2,
    sash_bar_width_mm := 0,
    arch_height_mm := 240, center_vertical_bar_width_mm := none,
    horizontal_distribution_mode := "from_chord" }

/-- A valid rectangular spec with an odd vertical count and a center
override of 50. -/
def wOddCenter : WindowSpec :=
  { width_mm := 800, height_mm := 1200, frame_width_mm := 60,
    num_vertical_bars := 3, num_horizontal_bars := 2,
    sash_bar_width_mm := 30,
    arch_height_mm := 0, center_vertical_bar_width_mm := some 50,
    horizontal_distribution_mode := "even" }

/-- A from_chord spec whose span below the chord bar is exactly 0 while
BW = 0, so the computed gap is 0. -/
def wSpanZero : WindowSpec :=
  { width_mm := 100, height_mm := 100, frame_width_mm := 10,
    num_vertical_bars := 0, num_horizontal_bars := 1,
    sash_bar_width_mm := 0,
    arch_height_mm := 80, center_vertical_bar_width_mm := none,
    horizontal_distribution_mode := "from_chord" }

/-- A tiny frameless, barless spec. -/
def wTiny : WindowSpec :=
  { width_mm := 10, height_mm := 10, frame_width_mm := 0,
    num_vertical_bars := 0, num_horizontal_bars := 0,
    sash_bar_width_mm := 0,
    arch_height_mm := 0, center_vertical_bar_width_mm := none,
    horizontal_distribution_mode := "even" }

/-- The document generated from wTiny. -/
def docTiny : SvgDoc :=
  { width_attr := 10, height_attr := 10,
    clip_shape := Shape.rectShape 0 0 10 10,
    glass := Shape.rectShape 0 0 10 10,
    glass_fill := "#e6f2ff",
    frame_cmds := compound_frame_path_rect 10 10 0,
    frame_fill := "#c7c7c7",
    bars := [] }

/-
Helper lemmas shared by several claims.
-/

/-- The validation ladder accepts a spec exactly when all constraints
hold. -/
theorem validate_none_iff (spec : WindowSpec) :
    validate spec = none ↔ specValid spec := by
  simp only [validate, specValid]
  split_ifs with h1 h2 h3 h4 h5 h6
  · constructor
    · intro h; exact absurd h (by simp)
    · rintro ⟨hW, hH, -⟩; exfalso; rcases h1 with h | h <;> linarith
  · constructor
    · intro h; exact absurd h (by simp)
    · rintro ⟨-, -, hF, hF2, -⟩; exfalso; rcases h2 with h | h <;> linarith
  · constructor
    · intro h; exact absurd h (by simp)
    · rintro ⟨-, -, -, -, hA1, hA2, -⟩; exfalso; rcases h3 with h | h <;> linarith
  · constructor
    · intro h; exact absurd h (by simp)
    · rintro ⟨-, -, -, -, -, -, hV, hN, -⟩; exfalso; rcases h4 with h | h <;> omega
  · constructor
    · intro h; exact absurd h (by simp)
    · rintro ⟨-, -, -, -, -, -, -, -, hB, hC, -⟩; exfalso
      rcases h5 with h | h <;> linarith
  · constructor
    · intro _
      push_neg at h1 h2 h3 h4 h5
      exact ⟨h1.1, h1.2, h2.1, h2.2, h3.1, h3.2, h4.1, h4.2, h5.1, h5.2, h6⟩
    · intro _; rfl
  · constructor
    · intro h; exact absurd h (by simp)
    · rintro ⟨-, -, -, -, -, -, -, -, -, -, hm⟩; exact absurd hm h6

/-- A valid spec has a strictly positive aperture in both directions. -/
theorem specValid_inner_pos (spec : WindowSpec) (h : specValid spec) :
    0 < spec.width_mm - 2 * spec.frame_width_mm ∧
    0 < spec.height_mm - 2 * spec.frame_width_mm := by
  obtain ⟨-, -, -, h4, -⟩ := h
  have h1 := min_le_left spec.width_mm spec.height_mm
  have h2 := min_le_right spec.width_mm spec.height_mm
  constructor <;> linarith

/-- Telescoping identity: gaps plus segment lengths fill the interval
exactly. -/
theorem gapsAlong_sum (segs : List (ℚ × ℚ)) : ∀ lo hi : ℚ,
    (gapsAlong lo hi segs).sum + (segs.map Prod.snd).sum = hi - lo := by
  induction segs with
  | nil => intro lo hi; simp [gapsAlong]
  | cons s rest ih =>
    intro lo hi
    obtain ⟨a, len⟩ := s
    have h := ih (a + len) hi
    simp only [gapsAlong, List.sum_cons, List.map_cons]
    linarith

/-- A list of n segments yields n+1 gaps. -/
theorem gapsAlong_length (segs : List (ℚ × ℚ)) : ∀ lo hi : ℚ,
    (gapsAlong lo hi segs).length = segs.length + 1 := by
  induction segs with
  | nil => intro lo hi; rfl
  | cons s rest ih =>
    intro lo hi
    obtain ⟨a, len⟩ := s
    simp [gapsAlong, ih]

/-- A validation failure is returned unchanged by the generator. -/
theorem generate_eq_error_validate (spec : WindowSpec) (e : String)
    (hv : validate spec = some e) :
    generate_window_svg spec = Except.error e := by
  simp [generate_window_svg, hv]

/-- A bar-layout failure is returned unchanged by the generator. -/
theorem generate_eq_of_hbars_error (spec : WindowSpec) (e : String)
    (hv : validate spec = none)
    (hb : horizontalBarsE spec = Except.error e) :
    generate_window_svg spec = Except.error e := by
  simp [generate_window_svg, hv, hb]

/-- Generation succeeds exactly when validation and the horizontal bar
layout succeed. -/
theorem generate_isOk_iff (spec : WindowSpec) :
    (generate_window_svg spec).isOk = true ↔
      validate spec = none ∧ (horizontalBarsE spec).isOk = true := by
  unfold generate_window_svg
  cases hv : validate spec with
  | some e => simp [hv, Except.isOk, Except.toBool]
  | none =>
    cases hb : horizontalBarsE spec with
    | error e => simp [hb, Except.isOk, Except.toBool]
    | ok l => simp [hb, Except.isOk, Except.toBool]

/-- The from_chord branch with fitting bars emits the chord bar then the
distributed bars. -/
theorem hbars_fc_ok (spec : WindowSpec)
    (hh : 0 < spec.height_mm - 2 * spec.frame_width_mm)
    (hm : spec.horizontal_distribution_mode = "from_chord")
    (hA : 0 < spec.arch_height_mm)
    (hN : 0 < spec.num_horizontal_bars)
    (hT : 0 < chordSpan spec)
    (hg : -(1/1000000000) ≤ chordGap spec) :
    horizontalBarsE spec = Except.ok (chordRect spec :: chordDistBars spec) := by
  have hT' : ¬ chordSpan spec ≤ 0 := not_le.mpr hT
  have hg' : ¬ chordGap spec < -(1/1000000000) := not_lt.mpr hg
  simp only [horizontalBarsE, if_pos hh, if_pos hN, if_neg hT', if_neg hg']
  rw [if_pos (show spec.horizontal_distribution_mode = "from_chord" ∧
      0 < spec.arch_height_mm from ⟨hm, hA⟩)]

/-- Outside the arched from_chord branch the horizontal bars are the
even-mode ones. -/
theorem hbars_even_ok (spec : WindowSpec)
    (hh : 0 < spec.height_mm - 2 * spec.frame_width_mm)
    (hnotfc : ¬(spec.horizontal_distribution_mode = "from_chord" ∧
                0 < spec.arch_height_mm)) :
    horizontalBarsE spec =
      Except.ok (if 0 < spec.num_horizontal_bars then evenHBars spec else []) := by
  simp only [horizontalBarsE, if_pos hh, if_neg hnotfc]
  split_ifs <;> rfl

/-- The from_chord branch fails with the no-space message when the span
T is non-positive. -/
theorem hbars_fc_noSpace (spec : WindowSpec)
    (hh : 0 < spec.height_mm - 2 * spec.frame_width_mm)
    (hm : spec.horizontal_distribution_mode = "from_chord")
    (hA : 0 < spec.arch_height_mm)
    (hN : 0 < spec.num_horizontal_bars)
    (hT : chordSpan spec ≤ 0) :
    horizontalBarsE spec = Except.error noSpaceMsg := by
  simp only [horizontalBarsE, if_pos hh, if_pos hN, if_pos hT]
  rw [if_pos (show spec.horizontal_distribution_mode = "from_chord" ∧
      0 < spec.arch_height_mm from ⟨hm, hA⟩)]

/-- The from_chord branch fails with the insufficient-space message when
T is positive but the gap is below the tolerance. -/
theorem hbars_fc_insufficient (spec : WindowSpec)
    (hh : 0 < spec.height_mm - 2 * spec.frame_width_mm)
    (hm : spec.horizontal_distribution_mode = "from_chord")
    (hA : 0 < spec.arch_height_mm)
    (hN : 0 < spec.num_horizontal_bars)
    (hT : 0 < chordSpan spec)
    (hg : chordGap spec < -(1/1000000000)) :
    horizontalBarsE spec = Except.error insufficientSpaceMsg := by
  have hT' : ¬ chordSpan spec ≤ 0 := not_le.mpr hT
  simp only [horizontalBarsE, if_pos hh, if_pos hN, if_neg hT', if_pos hg]
  rw [if_pos (show spec.horizontal_distribution_mode = "from_chord" ∧
      0 < spec.arch_height_mm from ⟨hm, hA⟩)]

/-- The from_chord branch with a zero bar count emits only the chord
bar. -/
theorem hbars_fc_chordOnly (spec : WindowSpec)
    (hh : 0 < spec.height_mm - 2 * spec.frame_width_mm)
    (hm : spec.horizontal_distribution_mode = "from_chord")
    (hA : 0 < spec.arch_height_mm)
    (hN : ¬ 0 < spec.num_horizontal_bars) :
    horizontalBarsE spec = Except.ok [chordRect spec] := by
  simp only [horizontalBarsE, if_pos hh, if_neg hN]
  rw [if_pos (show spec.horizontal_distribution_mode = "from_chord" ∧
      0 < spec.arch_height_mm from ⟨hm, hA⟩)]

/-
Claim theorems.
-/

/-- Claim C10 (implicit, confirmed): in from_chord mode with a positive
arch and a positive bar count, generation fails with the no-space error
whenever the span T below the chord bar is non-positive, regardless of
the computed gap. -/
theorem claim_C10 (spec : WindowSpec)
    (hv : validate spec = none)
    (hm : spec.horizontal_distribution_mode = "from_chord")
    (hA : 0 < spec.arch_height_mm)
    (hN : 0 < spec.num_horizontal_bars)
    (hT : chordSpan spec ≤ 0) :
    generate_window_svg spec = Except.error noSpaceMsg := by
  have hval := (validate_none_iff spec).mp hv
  have hh := (specValid_inner_pos spec hval).2
  exact generate_eq_of_hbars_error spec noSpaceMsg hv
    (hbars_fc_noSpace spec hh hm hA hN hT)

/-- Witness for C10 at wSpanZero, where T = 0 while the computed gap is
0, showing the T check rejects more than the negative-gap rule alone. -/
theorem claim_C10_witness :
    0 ≤ chordGap wSpanZero ∧
    generate_window_svg wSpanZero = Except.error noSpaceMsg :=
  ⟨by norm_num [chordGap, chordSpan, startY, bottomY, chord_y, wSpanZero],
   claim_C10 wSpanZero
    (by norm_num [validate, wSpanZero, resolvedCWB])
    rfl
    (by norm_num [wSpanZero])
    (by norm_num [wSpanZero])
    (by norm_num [chordSpan, startY, bottomY, chord_y, wSpanZero])⟩

/-- Claim C4 (confirmed): for every valid from_chord spec with a
positive arch whose generation succeeds, the first horizontal bar is the
single chord bar, with top edge at inner_y + max 0 (arch_height -
frame_width), height frame_width, and spanning x from 0 over the full
outer width; the remaining bars number num_horizontal_bars and all have
the ordinary sash height. -/
theorem claim_C4 (spec : WindowSpec) (hbars : List SvgRect)
    (hv : validate spec = none)
    (hm : spec.horizontal_distribution_mode = "from_chord")
    (hA : 0 < spec.arch_height_mm)
    (hb : horizontalBarsE spec = Except.ok hbars) :
    ∃ rest, hbars =
      { x := 0,
        y := spec.frame_width_mm +
          max 0 (spec.arch_height_mm - spec.frame_width_mm),
        width := spec.width_mm, height := spec.frame_width_mm,
        fill := spec.bar_color } :: rest ∧
      rest.length = spec.num_horizontal_bars.toNat ∧
      ∀ r ∈ rest, r.height = spec.sash_bar_width_mm := by
  have hval := (validate_none_iff spec).mp hv
  have hh := (specValid_inner_pos spec hval).2
  by_cases hN : 0 < spec.num_horizontal_bars
  · by_cases hT : chordSpan spec ≤ 0
    · rw [hbars_fc_noSpace spec hh hm hA hN hT] at hb; cases hb
    · push_neg at hT
      by_cases hg : chordGap spec < -(1/1000000000)
      · rw [hbars_fc_insufficient spec hh hm hA hN hT hg] at hb; cases hb
      · push_neg at hg
        rw [hbars_fc_ok spec hh hm hA hN hT hg] at hb
        refine ⟨chordDistBars spec, (Except.ok.inj hb).symm, ?_, ?_⟩
        · simp only [chordDistBars, List.length_map, List.length_range]
        · intro r hr
          simp only [chordDistBars, List.mem_map, List.mem_range] at hr
          obtain ⟨k, -, rfl⟩ := hr
          rfl
  · rw [hbars_fc_chordOnly spec hh hm hA hN] at hb
    obtain ⟨-, -, -, -, -, -, -, hNH, -⟩ := hval
    refine ⟨[], (Except.ok.inj hb).symm, ?_, ?_⟩
    · simp only [List.length_nil]; omega
    · intro r hr; cases hr

/-- Witness for C4 at wChordFit: the emitted list is the chord bar at
y 20 of height 10 followed by one distributed bar of height 20. -/
theorem claim_C4_witness :
    ∃ rest,
      [({ x := 0, y := 20, width := 100, height := 10,
          fill := "#c7c7c7" } : SvgRect),
       { x := 0, y := 50, width := 100, height := 20,
          fill := "#c7c7c7" }] =
      { x := 0,
        y := wChordFit.frame_width_mm +
          max 0 (wChordFit.arch_height_mm - wChordFit.frame_width_mm),
        width := wChordFit.width_mm, height := wChordFit.frame_width_mm,
        fill := wChordFit.bar_color } :: rest ∧
      rest.length = wChordFit.num_horizontal_bars.toNat ∧
      ∀ r ∈ rest, r.height = wChordFit.sash_bar_width_mm := by
  have hlist : chordRect wChordFit :: chordDistBars wChordFit =
      [{ x := 0, y := 20, width := 100, height := 10, fill := "#c7c7c7" },
       { x := 0, y := 50, width := 100, height := 20, fill := "#c7c7c7" }] := by
    norm_num [chordRect, chordDistBars, chord_y, startY, bottomY, chordSpan,
      chordGap, usedChordGap, wChordFit, List.range_succ]
  have hb : horizontalBarsE wChordFit = Except.ok
      [{ x := 0, y := 20, width := 100, height := 10, fill := "#c7c7c7" },
       { x := 0, y := 50, width := 100, height := 20, fill := "#c7c7c7" }] := by
    rw [hbars_fc_ok wChordFit (by norm_num [wChordFit]) rfl
      (by norm_num [wChordFit]) (by norm_num [wChordFit])
      (by norm_num [chordSpan, startY, bottomY, chord_y, wChordFit])
      (by norm_num [chordGap, chordSpan, startY, bottomY, chord_y, wChordFit]),
      hlist]
  exact claim_C4 wChordFit _
    (by norm_num [validate, wChordFit, resolvedCWB]) rfl
    (by norm_num [wChordFit]) hb

/-- Counterexample to C1 as stated: at cexTolerance the computed gap is
-1/10^10, strictly negative, yet generation succeeds, silently clamping
the gap to 0, instead of failing with InsufficientSpace. -/
theorem claim_C1_counterexample :
    validate cexTolerance = none ∧
    chordGap cexTolerance < 0 ∧
    usedChordGap cexTolerance = 0 ∧
    (generate_window_svg cexTolerance).isOk = true := by
  have hv : validate cexTolerance = none := by
    norm_num [validate, cexTolerance, resolvedCWB]
  refine ⟨hv, ?_, ?_, ?_⟩
  · norm_num [chordGap, chordSpan, startY, bottomY, chord_y, cexTolerance]
  · norm_num [usedChordGap, chordGap, chordSpan, startY, bottomY, chord_y,
      cexTolerance]
  · refine (generate_isOk_iff cexTolerance).mpr ⟨hv, ?_⟩
    rw [hbars_fc_ok cexTolerance (by norm_num [cexTolerance]) rfl
      (by norm_num [cexTolerance]) (by norm_num [cexTolerance])
      (by norm_num [chordSpan, startY, bottomY, chord_y, cexTolerance])
      (by norm_num [chordGap, chordSpan, startY, bottomY, chord_y,
        cexTolerance])]
    rfl

/-- Claim C1 as amended: with a positive span T, generation fails with
the InsufficientSpace error exactly when the computed gap is below the
tolerance -1e-9; a gap of at least -1e-9 (including slightly negative
ones, which are clamped to zero) lets generation succeed. -/
theorem claim_C1_amended (spec : WindowSpec)
    (hv : validate spec = none)
    (hm : spec.horizontal_distribution_mode = "from_chord")
    (hA : 0 < spec.arch_height_mm)
    (hN : 0 < spec.num_horizontal_bars)
    (hT : 0 < chordSpan spec) :
    (generate_window_svg spec = Except.error insufficientSpaceMsg ↔
      chordGap spec < -(1/1000000000)) ∧
    (-(1/1000000000) ≤ chordGap spec →
      (generate_window_svg spec).isOk = true) := by
  have hval := (validate_none_iff spec).mp hv
  have hh := (specValid_inner_pos spec hval).2
  by_cases hg : chordGap spec < -(1/1000000000)
  · have hgen := generate_eq_of_hbars_error spec _ hv
      (hbars_fc_insufficient spec hh hm hA hN hT hg)
    refine ⟨⟨fun _ => hg, fun _ => hgen⟩, ?_⟩
    intro h; exact absurd hg (not_lt.mpr h)
  · push_neg at hg
    have hb := hbars_fc_ok spec hh hm hA hN hT hg
    have hok : (generate_window_svg spec).isOk = true :=
      (generate_isOk_iff spec).mpr ⟨hv, by rw [hb]; rfl⟩
    refine ⟨⟨?_, ?_⟩, fun _ => hok⟩
    · intro h; rw [h] at hok; exact absurd hok (by decide)
    · intro hcon; exact absurd hcon (not_lt.mpr hg)

/-- Witness for the amended C1 at wInsufficient, where the gap -20 is
far below the tolerance and generation fails with InsufficientSpace. -/
theorem claim_C1_witness :
    generate_window_svg wInsufficient = Except.error insufficientSpaceMsg :=
  (claim_C1_amended wInsufficient
    (by norm_num [validate, wInsufficient, resolvedCWB]) rfl
    (by norm_num [wInsufficient]) (by norm_num [wInsufficient])
    (by norm_num [chordSpan, startY, bottomY, chord_y, wInsufficient])).1.mpr
    (by norm_num [chordGap, chordSpan, startY, bottomY, chord_y,
      wInsufficient])

/-- Counterexample to C2 as stated: cexZeroCenter supplies a center
width of 0 with an odd vertical count, yet the single middle bar is
emitted with the sash width 30, not 0, because the resolution treats a
supplied 0 like an absent value. -/
theorem claim_C2_counterexample :
    cexZeroCenter.center_vertical_bar_width_mm = some 0 ∧
    cexZeroCenter.num_vertical_bars % 2 = 1 ∧
    (verticalBars cexZeroCenter).map SvgRect.width = [30] ∧
    (30 : ℚ) ≠ 0 := by
  refine ⟨rfl, by decide, ?_, by norm_num⟩
  norm_num [verticalBars, cexZeroCenter, resolvedCWB, List.range_succ]

/-- Claim C2 as amended: for every accepted spec with an odd vertical
count, the middle bar carries the resolved center width, which is the
supplied value when it is present and nonzero, and falls back to
sash_bar_width when the field is absent or equal to 0 (Python
truthiness). -/
theorem claim_C2_amended (spec : WindowSpec)
    (hv : validate spec = none)
    (hodd : spec.num_vertical_bars % 2 = 1) :
    ∃ r, (verticalBars spec)[spec.num_vertical_bars.toNat / 2]? = some r ∧
      r.width = resolvedCWB spec.center_vertical_bar_width_mm
        spec.sash_bar_width_mm ∧
      ((spec.center_vertical_bar_width_mm = none ∨
        spec.center_vertical_bar_width_mm = some 0) →
        r.width = spec.sash_bar_width_mm) ∧
      (∀ c, spec.center_vertical_bar_width_mm = some c → c ≠ 0 →
        r.width = c) := by
  have hval := (validate_none_iff spec).mp hv
  have hw := (specValid_inner_pos spec hval).1
  obtain ⟨-, -, -, -, -, -, hNV, -⟩ := hval
  have hN : 0 < spec.num_vertical_bars := by omega
  have hcond : 0 < spec.num_vertical_bars ∧
      0 < spec.width_mm - 2 * spec.frame_width_mm := ⟨hN, hw⟩
  have hlt : spec.num_vertical_bars.toNat / 2 <
      spec.num_vertical_bars.toNat := by omega
  have hmid : ((spec.num_vertical_bars.toNat / 2 : ℕ) : ℤ) =
      spec.num_vertical_bars / 2 := by omega
  have hifc : spec.num_vertical_bars % 2 = 1 ∧
      ((spec.num_vertical_bars.toNat / 2 : ℕ) : ℤ) =
        spec.num_vertical_bars / 2 := ⟨hodd, hmid⟩
  have hbar : (verticalBars spec)[spec.num_vertical_bars.toNat / 2]? = some
      { x := spec.frame_width_mm +
          (((spec.num_vertical_bars.toNat / 2 : ℕ) : ℚ) + 1) *
            ((spec.width_mm - 2 * spec.frame_width_mm) /
              ((spec.num_vertical_bars : ℚ) + 1)) -
          resolvedCWB spec.center_vertical_bar_width_mm
            spec.sash_bar_width_mm / 2,
        y := 0,
        width := resolvedCWB spec.center_vertical_bar_width_mm
          spec.sash_bar_width_mm,
        height := spec.height_mm,
        fill := spec.bar_color } := by
    simp only [verticalBars, if_pos hcond, List.getElem?_map,
      List.getElem?_range hlt, Option.map_some', if_pos hifc]
  refine ⟨_, hbar, rfl, ?_, ?_⟩
  · intro h
    show resolvedCWB spec.center_vertical_bar_width_mm
      spec.sash_bar_width_mm = spec.sash_bar_width_mm
    rcases h with h | h <;> rw [h] <;> simp [resolvedCWB]
  · intro c hc hc0
    show resolvedCWB spec.center_vertical_bar_width_mm
      spec.sash_bar_width_mm = c
    rw [hc]; simp [resolvedCWB, hc0]

/-- Witness for the amended C2 at wOddCenter: the middle of the three
vertical bars is emitted with the supplied center width 50. -/
theorem claim_C2_witness :
    (verticalBars wOddCenter)[1]? = some
      { x := 375, y := 0, width := 50, height := 1200,
        fill := "#c7c7c7" } := by
  obtain ⟨r, h1, -, -, -⟩ := claim_C2_amended wOddCenter
    (by norm_num [validate, wOddCenter, resolvedCWB]) (by decide)
  have h1' : (verticalBars wOddCenter)[1]? = some r := h1
  have hval : (verticalBars wOddCenter)[1]? = some
      ({ x := 375, y := 0, width := 50, height := 1200,
         fill := "#c7c7c7" } : SvgRect) := by
    norm_num [verticalBars, wOddCenter, resolvedCWB, List.range_succ]
  exact h1'.trans (h1'.symm.trans hval)

/-- Counterexample to C3 as stated: cexTallBar passes validation and
generation succeeds, yet its single even-mode horizontal bar spans y
from -50 to 150, extending both above inner_y = 10 and below
inner_y + inner_height = 90; no error is raised. -/
theorem claim_C3_counterexample :
    validate cexTallBar = none ∧
    (generate_window_svg cexTallBar).isOk = true ∧
    horizontalBarsE cexTallBar = Except.ok
      [{ x := 0, y := -50, width := 100, height := 200,
         fill := "#c7c7c7" }] ∧
    (-50 : ℚ) < cexTallBar.frame_width_mm ∧
    cexTallBar.frame_width_mm +
      (cexTallBar.height_mm - 2 * cexTallBar.frame_width_mm) <
      -50 + 200 := by
  have hv : validate cexTallBar = none := by
    norm_num [validate, cexTallBar, resolvedCWB]
  have hb : horizontalBarsE cexTallBar = Except.ok
      [{ x := 0, y := -50, width := 100, height := 200,
         fill := "#c7c7c7" }] := by
    rw [hbars_even_ok cexTallBar (by norm_num [cexTallBar])
      (by simp [cexTallBar])]
    norm_num [evenHBars, cexTallBar, List.range_succ]
  refine ⟨hv, ?_, hb, by norm_num [cexTallBar], by norm_num [cexTallBar]⟩
  exact (generate_isOk_iff cexTallBar).mpr ⟨hv, by rw [hb]; rfl⟩

/-- Claim C3 as amended: emitted bars are not validated against the
aperture interval (the counterexample bar overruns it on both sides
while generation succeeds); containment is enforced only by the
render-time clip.  What does hold is that in from_chord mode with a
nonnegative computed gap, every distributed bar below the chord lies
fully within the aperture interval. -/
theorem claim_C3_amended (spec : WindowSpec) (bars : List SvgRect)
    (hv : validate spec = none)
    (hm : spec.horizontal_distribution_mode = "from_chord")
    (hA : 0 < spec.arch_height_mm)
    (hg : 0 ≤ chordGap spec)
    (hb : horizontalBarsE spec = Except.ok bars) :
    ∀ r ∈ bars.tail,
      spec.frame_width_mm ≤ r.y ∧
      r.y + r.height ≤ spec.frame_width_mm +
        (spec.height_mm - 2 * spec.frame_width_mm) := by
  have hval := (validate_none_iff spec).mp hv
  have hh := (specValid_inner_pos spec hval).2
  obtain ⟨-, -, hFW, -, -, -, -, hNH, hBW, -, -⟩ := hval
  by_cases hN : 0 < spec.num_horizontal_bars
  · by_cases hT : chordSpan spec ≤ 0
    · rw [hbars_fc_noSpace spec hh hm hA hN hT] at hb; cases hb
    · push_neg at hT
      have hg' : -(1/1000000000) ≤ chordGap spec := by linarith
      rw [hbars_fc_ok spec hh hm hA hN hT hg'] at hb
      obtain rfl : chordRect spec :: chordDistBars spec = bars :=
        Except.ok.inj hb
      intro r hr
      simp only [List.tail_cons] at hr
      simp only [chordDistBars, List.mem_map, List.mem_range] at hr
      obtain ⟨k, hk, rfl⟩ := hr
      dsimp only
      have hused : usedChordGap spec = chordGap spec := max_eq_left hg
      rw [hused]
      have hNQ0 : (0:ℚ) ≤ (spec.num_horizontal_bars : ℚ) := by
        exact_mod_cast hNH
      have hD : ((spec.num_horizontal_bars : ℚ) + 1) ≠ 0 := by linarith
      have key : chordGap spec * ((spec.num_horizontal_bars : ℚ) + 1) =
          chordSpan spec -
            (spec.num_horizontal_bars : ℚ) * spec.sash_bar_width_mm :=
        div_mul_cancel₀ _ hD
      have hkQ : ((k : ℚ)) + 1 ≤ (spec.num_horizontal_bars : ℚ) := by
        have h1 : (k : ℤ) + 1 ≤ spec.num_horizontal_bars := by omega
        exact_mod_cast h1
      have hstart : spec.frame_width_mm ≤ startY spec := by
        simp only [startY, chord_y]
        have := le_max_left (0:ℚ)
          (spec.arch_height_mm - spec.frame_width_mm)
        linarith
      have hK0 : (0:ℚ) ≤ (k : ℚ) := by positivity
      have hmul0 : (0:ℚ) ≤ (k : ℚ) *
          (spec.sash_bar_width_mm + chordGap spec) :=
        mul_nonneg hK0 (by linarith)
      constructor
      · linarith
      · have hmul : (k : ℚ) * (spec.sash_bar_width_mm + chordGap spec) ≤
            ((spec.num_horizontal_bars : ℚ) - 1) *
              (spec.sash_bar_width_mm + chordGap spec) :=
          mul_le_mul_of_nonneg_right (by linarith) (by linarith)
        have hexp : ((spec.num_horizontal_bars : ℚ) - 1) *
              (spec.sash_bar_width_mm + chordGap spec) =
            (spec.num_horizontal_bars : ℚ) * spec.sash_bar_width_mm +
              (spec.num_horizontal_bars : ℚ) * chordGap spec -
              spec.sash_bar_width_mm - chordGap spec := by ring
        have hkey2 : chordGap spec * ((spec.num_horizontal_bars : ℚ) + 1) =
            (spec.num_horizontal_bars : ℚ) * chordGap spec +
              chordGap spec := by ring
        have hspan : chordSpan spec = bottomY spec - startY spec := rfl
        have hbot : bottomY spec = spec.frame_width_mm +
            (spec.height_mm - 2 * spec.frame_width_mm) := rfl
        linarith
  · rw [hbars_fc_chordOnly spec hh hm hA hN] at hb
    obtain rfl : [chordRect spec] = bars := Except.ok.inj hb
    intro r hr
    exact absurd hr (by simp)

/-- Witness for the amended C3 at wChordFit: the single distributed bar
occupies y in the range 50 to 70, inside the aperture interval 10 to
90. -/
theorem claim_C3_witness :
    wChordFit.frame_width_mm ≤ (50 : ℚ) ∧
    (50 : ℚ) + 20 ≤ wChordFit.frame_width_mm +
      (wChordFit.height_mm - 2 * wChordFit.frame_width_mm) := by
  have hb : horizontalBarsE wChordFit = Except.ok
      [{ x := 0, y := 20, width := 100, height := 10, fill := "#c7c7c7" },
       { x := 0, y := 50, width := 100, height := 20,
         fill := "#c7c7c7" }] := by
    rw [hbars_fc_ok wChordFit (by norm_num [wChordFit]) rfl
      (by norm_num [wChordFit]) (by norm_num [wChordFit])
      (by norm_num [chordSpan, startY, bottomY, chord_y, wChordFit])
      (by norm_num [chordGap, chordSpan, startY, bottomY, chord_y,
        wChordFit])]
    norm_num [chordRect, chordDistBars, chord_y, startY, bottomY,
      chordSpan, chordGap, usedChordGap, wChordFit, List.range_succ]
  have h := claim_C3_amended wChordFit _
    (by norm_num [validate, wChordFit, resolvedCWB]) rfl
    (by norm_num [wChordFit])
    (by norm_num [chordGap, chordSpan, startY, bottomY, chord_y,
      wChordFit])
    hb
  have h2 := h ({ x := 0, y := 50, width := 100, height := 20,
                  fill := "#c7c7c7" } : SvgRect) (by simp)
  simpa using h2

/-- Claim C5 (confirmed): for every accepted spec with a positive
vertical count, exactly num_vertical_bars vertical bars are emitted,
the k-th (0-indexed) centered at inner_x + (k+1) * (inner_w / (N+1)),
spanning y from 0 over the full outer height, with the resolved center
width at the middle index of an odd count and sash_bar_width
elsewhere. -/
theorem claim_C5 (spec : WindowSpec)
    (hv : validate spec = none)
    (hN : 0 < spec.num_vertical_bars) :
    (verticalBars spec).length = spec.num_vertical_bars.toNat ∧
    ∀ k : ℕ, k < spec.num_vertical_bars.toNat →
      (verticalBars spec)[k]? = some
        { x := spec.frame_width_mm + ((k : ℚ) + 1) *
            ((spec.width_mm - 2 * spec.frame_width_mm) /
              ((spec.num_vertical_bars : ℚ) + 1)) -
            (if spec.num_vertical_bars % 2 = 1 ∧
                (k : ℤ) = spec.num_vertical_bars / 2
             then resolvedCWB spec.center_vertical_bar_width_mm
                spec.sash_bar_width_mm
             else spec.sash_bar_width_mm) / 2,
          y := 0,
          width := if spec.num_vertical_bars % 2 = 1 ∧
                (k : ℤ) = spec.num_vertical_bars / 2
             then resolvedCWB spec.center_vertical_bar_width_mm
                spec.sash_bar_width_mm
             else spec.sash_bar_width_mm,
          height := spec.height_mm,
          fill := spec.bar_color } := by
  have hval := (validate_none_iff spec).mp hv
  have hw := (specValid_inner_pos spec hval).1
  have hcond : 0 < spec.num_vertical_bars ∧
      0 < spec.width_mm - 2 * spec.frame_width_mm := ⟨hN, hw⟩
  constructor
  · simp only [verticalBars, if_pos hcond, List.length_map,
      List.length_range]
  · intro k hk
    simp only [verticalBars, if_pos hcond, List.getElem?_map,
      List.getElem?_range hk, Option.map_some']

/-- Witness for C5 at wOddCenter: three bars, the middle one centered
at x = 400 with width 50. -/
theorem claim_C5_witness :
    (verticalBars wOddCenter).length = 3 ∧
    (verticalBars wOddCenter)[1]? = some
      { x := 375, y := 0, width := 50, height := 1200,
        fill := "#c7c7c7" } := by
  obtain ⟨h1, h2⟩ := claim_C5 wOddCenter
    (by norm_num [validate, wOddCenter, resolvedCWB]) (by decide)
  refine ⟨h1, ?_⟩
  have h3 := h2 1 (by decide)
  rw [h3]
  norm_num [wOddCenter, resolvedCWB]

/-- Counterexample to C6 as stated: at cexClampGap the computed gap
-1/10^10 is clamped to 0, the single distributed bar is emitted flush
against the chord bar, and (N+1) times the used gap plus N times the
bar width exceeds the span T. -/
theorem claim_C6_counterexample :
    validate cexClampGap = none ∧
    horizontalBarsE cexClampGap = Except.ok
      [{ x := 0, y := 40, width := 200, height := 20, fill := "#c7c7c7" },
       { x := 0, y := 60, width := 200, height := 600000000001/5000000000,
         fill := "#c7c7c7" }] ∧
    ((cexClampGap.num_horizontal_bars : ℚ) + 1) * usedChordGap cexClampGap +
      (cexClampGap.num_horizontal_bars : ℚ) * cexClampGap.sash_bar_width_mm ≠
      chordSpan cexClampGap := by
  have hv : validate cexClampGap = none := by
    norm_num [validate, cexClampGap, resolvedCWB]
  refine ⟨hv, ?_, ?_⟩
  · rw [hbars_fc_ok cexClampGap (by norm_num [cexClampGap]) rfl
      (by norm_num [cexClampGap]) (by norm_num [cexClampGap])
      (by norm_num [chordSpan, startY, bottomY, chord_y, cexClampGap])
      (by norm_num [chordGap, chordSpan, startY, bottomY, chord_y,
        cexClampGap])]
    norm_num [chordRect, chordDistBars, chord_y, startY, bottomY,
      chordSpan, chordGap, usedChordGap, cexClampGap, List.range_succ]
  · norm_num [usedChordGap, chordGap, chordSpan, startY, bottomY,
      chord_y, cexClampGap]

/-- Claim C6 as amended: for every accepted spec the N+1 gaps cut by
the vertical bars plus the N bar widths sum exactly to the aperture
width, and likewise for even-mode horizontal bars over the aperture
height; the gaps cut by the from_chord distributed bars plus their
heights sum exactly to the span T; and (N+1) times the used gap plus N
times sash_bar_width equals T whenever the computed gap is nonnegative
(when it is negative but clamped, the counterexample shows the used-gap
identity fails). -/
theorem claim_C6_amended (spec : WindowSpec)
    (hv : validate spec = none) :
    ((gapsAlong spec.frame_width_mm
        (spec.frame_width_mm + (spec.width_mm - 2 * spec.frame_width_mm))
        ((verticalBars spec).map (fun r => (r.x, r.width)))).sum +
      ((verticalBars spec).map SvgRect.width).sum =
        spec.width_mm - 2 * spec.frame_width_mm) ∧
    ((gapsAlong spec.frame_width_mm
        (spec.frame_width_mm + (spec.width_mm - 2 * spec.frame_width_mm))
        ((verticalBars spec).map (fun r => (r.x, r.width)))).length =
      spec.num_vertical_bars.toNat + 1) ∧
    ((gapsAlong spec.frame_width_mm
        (spec.frame_width_mm + (spec.height_mm - 2 * spec.frame_width_mm))
        ((evenHBars spec).map (fun r => (r.y, r.height)))).sum +
      ((evenHBars spec).map SvgRect.height).sum =
        spec.height_mm - 2 * spec.frame_width_mm) ∧
    ((gapsAlong spec.frame_width_mm
        (spec.frame_width_mm + (spec.height_mm - 2 * spec.frame_width_mm))
        ((evenHBars spec).map (fun r => (r.y, r.height)))).length =
      spec.num_horizontal_bars.toNat + 1) ∧
    ((gapsAlong (startY spec) (bottomY spec)
        ((chordDistBars spec).map (fun r => (r.y, r.height)))).sum +
      ((chordDistBars spec).map SvgRect.height).sum = chordSpan spec) ∧
    (0 ≤ chordGap spec →
      ((spec.num_horizontal_bars : ℚ) + 1) * usedChordGap spec +
        (spec.num_horizontal_bars : ℚ) * spec.sash_bar_width_mm =
        chordSpan spec) := by
  have hval := (validate_none_iff spec).mp hv
  have hw := (specValid_inner_pos spec hval).1
  obtain ⟨-, -, -, -, -, -, hNV, hNH, -, -, -⟩ := hval
  have hcompV : ((verticalBars spec).map
      (fun r => (r.x, r.width))).map Prod.snd =
      (verticalBars spec).map SvgRect.width := by
    rw [List.map_map]; rfl
  have hcompH : ((evenHBars spec).map
      (fun r => (r.y, r.height))).map Prod.snd =
      (evenHBars spec).map SvgRect.height := by
    rw [List.map_map]; rfl
  have hcompC : ((chordDistBars spec).map
      (fun r => (r.y, r.height))).map Prod.snd =
      (chordDistBars spec).map SvgRect.height := by
    rw [List.map_map]; rfl
  have hlenV : (verticalBars spec).length =
      spec.num_vertical_bars.toNat := by
    by_cases hN : 0 < spec.num_vertical_bars
    · have hcond : 0 < spec.num_vertical_bars ∧
          0 < spec.width_mm - 2 * spec.frame_width_mm := ⟨hN, hw⟩
      simp only [verticalBars, if_pos hcond, List.length_map,
        List.length_range]
    · have hcond : ¬(0 < spec.num_vertical_bars ∧
          0 < spec.width_mm - 2 * spec.frame_width_mm) :=
        fun hc => hN hc.1
      simp only [verticalBars, if_neg hcond, List.length_nil]
      omega
  refine ⟨?_, ?_, ?_, ?_, ?_, ?_⟩
  · have h := gapsAlong_sum ((verticalBars spec).map
      (fun r => (r.x, r.width))) spec.frame_width_mm
      (spec.frame_width_mm + (spec.width_mm - 2 * spec.frame_width_mm))
    rw [hcompV] at h
    linarith
  · rw [gapsAlong_length, List.length_map, hlenV]
  · have h := gapsAlong_sum ((evenHBars spec).map
      (fun r => (r.y, r.height))) spec.frame_width_mm
      (spec.frame_width_mm + (spec.height_mm - 2 * spec.frame_width_mm))
    rw [hcompH] at h
    linarith
  · rw [gapsAlong_length, List.length_map]
    simp only [evenHBars, List.length_map, List.length_range]
  · have h := gapsAlong_sum ((chordDistBars spec).map
      (fun r => (r.y, r.height))) (startY spec) (bottomY spec)
    rw [hcompC] at h
    exact h
  · intro hg
    rw [usedChordGap, max_eq_left hg]
    have hNQ0 : (0:ℚ) ≤ (spec.num_horizontal_bars : ℚ) := by
      exact_mod_cast hNH
    have hD : ((spec.num_horizontal_bars : ℚ) + 1) ≠ 0 := by linarith
    have key : chordGap spec * ((spec.num_horizontal_bars : ℚ) + 1) =
        chordSpan spec -
          (spec.num_horizontal_bars : ℚ) * spec.sash_bar_width_mm :=
      div_mul_cancel₀ _ hD
    linear_combination key

/-- Witness for the amended C6 at wChordFit: the gap is 20, and
2 gaps of 20 plus one bar of 20 fill the span 60 exactly. -/
theorem claim_C6_witness :
    ((wChordFit.num_horizontal_bars : ℚ) + 1) * usedChordGap wChordFit +
      (wChordFit.num_horizontal_bars : ℚ) * wChordFit.sash_bar_width_mm =
      chordSpan wChordFit ∧ 0 ≤ chordGap wChordFit := by
  have hg : 0 ≤ chordGap wChordFit := by
    norm_num [chordGap, chordSpan, startY, bottomY, chord_y, wChordFit]
  have h := claim_C6_amended wChordFit
    (by norm_num [validate, wChordFit, resolvedCWB])
  exact ⟨h.2.2.2.2.2 hg, hg⟩

/-- Counterexample to C7 as stated: cexFitButNoSpace satisfies every
listed validation condition and its bars fit the InsufficientSpace rule
(the computed gap is 0), yet generation fails, with the distinct
no-space error raised on the T <= 0 check. -/
theorem claim_C7_counterexample :
    specValid cexFitButNoSpace ∧
    0 ≤ chordGap cexFitButNoSpace ∧
    generate_window_svg cexFitButNoSpace = Except.error noSpaceMsg := by
  have hv : validate cexFitButNoSpace = none := by
    norm_num [validate, cexFitButNoSpace, resolvedCWB]
  refine ⟨(validate_none_iff _).mp hv, ?_, ?_⟩
  · norm_num [chordGap, chordSpan, startY, bottomY, chord_y,
      cexFitButNoSpace]
  · exact generate_eq_of_hbars_error _ _ hv
      (hbars_fc_noSpace _ (by norm_num [cexFitButNoSpace]) rfl
        (by norm_num [cexFitButNoSpace]) (by norm_num [cexFitButNoSpace])
        (by norm_num [chordSpan, startY, bottomY, chord_y,
          cexFitButNoSpace]))

/-- Claim C7 as amended: generation succeeds exactly when all upfront
validation constraints hold and, in from_chord mode with a positive
arch and bar count, the span T is strictly positive and the computed
gap is at least -1e-9. -/
theorem claim_C7_amended (spec : WindowSpec) :
    (generate_window_svg spec).isOk = true ↔
      (specValid spec ∧
       (spec.horizontal_distribution_mode = "from_chord" ∧
        0 < spec.arch_height_mm ∧ 0 < spec.num_horizontal_bars →
        0 < chordSpan spec ∧ -(1/1000000000) ≤ chordGap spec)) := by
  rw [generate_isOk_iff]
  constructor
  · rintro ⟨hv, hb⟩
    have hval := (validate_none_iff spec).mp hv
    refine ⟨hval, ?_⟩
    rintro ⟨hm, hA, hN⟩
    have hh := (specValid_inner_pos spec hval).2
    by_cases hT : chordSpan spec ≤ 0
    · rw [hbars_fc_noSpace spec hh hm hA hN hT] at hb
      exact absurd hb (by decide)
    · push_neg at hT
      by_cases hgc : chordGap spec < -(1/1000000000)
      · rw [hbars_fc_insufficient spec hh hm hA hN hT hgc] at hb
        exact absurd hb (by decide)
      · push_neg at hgc
        exact ⟨hT, hgc⟩
  · rintro ⟨hval, hfit⟩
    have hv := (validate_none_iff spec).mpr hval
    have hh := (specValid_inner_pos spec hval).2
    refine ⟨hv, ?_⟩
    by_cases hfc : spec.horizontal_distribution_mode = "from_chord" ∧
        0 < spec.arch_height_mm
    · by_cases hN : 0 < spec.num_horizontal_bars
      · obtain ⟨hT, hgc⟩ := hfit ⟨hfc.1, hfc.2, hN⟩
        rw [hbars_fc_ok spec hh hfc.1 hfc.2 hN hT hgc]; rfl
      · rw [hbars_fc_chordOnly spec hh hfc.1 hfc.2 hN]; rfl
    · rw [hbars_even_ok spec hh hfc]; rfl

/-- At zero rise the inner arch path has the extents of the inset
rectangle. -/
theorem path_arch_inner_extents_zero (W H FW : ℚ)
    (hFW : 0 ≤ FW) (hw : 0 ≤ W - 2 * FW) (hh : 0 ≤ H - 2 * FW) :
    pathExtents (path_arch_inner W H FW 0) =
      (W - 2 * FW, H - 2 * FW) := by
  have hai : max 0 ((0:ℚ) - FW) = 0 := max_eq_left (by linarith)
  have hwi : max 0 (W - 2 * FW) = W - 2 * FW := max_eq_right hw
  have hhi : max 0 (H - 2 * FW) = H - 2 * FW := max_eq_right hh
  have e1 : FW ≤ FW + (W - 2 * FW) := by linarith
  have e2 : FW ≤ FW + (H - 2 * FW) := by linarith
  simp only [path_arch_inner, hai, hwi, hhi, pathExtents, cmdPoints,
    List.map_cons, List.map_nil, List.flatten, List.append_nil,
    List.cons_append, List.nil_append, List.singleton_append,
    List.foldl_cons, List.foldl_nil, add_zero, sub_zero,
    max_self, min_self, max_eq_right e1, max_eq_left e1, min_eq_left e1,
    min_eq_right e1, max_eq_right e2, max_eq_left e2, min_eq_left e2,
    min_eq_right e2, Prod.mk.injEq]
  constructor <;> ring

/-- Claim C8 (confirmed): with zero arch height the generator takes the
rectangle code path for the glazing clip, the inner arch path at zero
rise has the same extents as the inset rectangle, and swapping the
horizontal mode between from_chord and even changes nothing in the
output; the horizontal bars number exactly num_horizontal_bars, with no
chord bar added. -/
theorem claim_C8 (spec : WindowSpec)
    (hv : validate spec = none)
    (hA : spec.arch_height_mm = 0) :
    (∃ doc, generate_window_svg spec = Except.ok doc ∧
      doc.clip_shape = Shape.rectShape spec.frame_width_mm
        spec.frame_width_mm (spec.width_mm - 2 * spec.frame_width_mm)
        (spec.height_mm - 2 * spec.frame_width_mm)) ∧
    pathExtents (path_arch_inner spec.width_mm spec.height_mm
        spec.frame_width_mm 0) =
      (spec.width_mm - 2 * spec.frame_width_mm,
       spec.height_mm - 2 * spec.frame_width_mm) ∧
    generate_window_svg
        { spec with horizontal_distribution_mode := "from_chord" } =
      generate_window_svg
        { spec with horizontal_distribution_mode := "even" } ∧
    (∀ hb, horizontalBarsE spec = Except.ok hb →
      hb.length = spec.num_horizontal_bars.toNat) := by
  have hval := (validate_none_iff spec).mp hv
  obtain ⟨hw, hh⟩ := specValid_inner_pos spec hval
  have hnA : ¬ 0 < spec.arch_height_mm := by rw [hA]; exact lt_irrefl 0
  have hnotfc : ¬(spec.horizontal_distribution_mode = "from_chord" ∧
      0 < spec.arch_height_mm) := fun hc => hnA hc.2
  have hb0 := hbars_even_ok spec hh hnotfc
  have hFW0 : 0 ≤ spec.frame_width_mm := hval.2.2.1
  refine ⟨?_, ?_, ?_, ?_⟩
  · have hgen : generate_window_svg spec = Except.ok
        { width_attr := spec.width_mm, height_attr := spec.height_mm,
          clip_shape := Shape.rectShape spec.frame_width_mm
            spec.frame_width_mm (spec.width_mm - 2 * spec.frame_width_mm)
            (spec.height_mm - 2 * spec.frame_width_mm),
          glass := Shape.rectShape spec.frame_width_mm
            spec.frame_width_mm (spec.width_mm - 2 * spec.frame_width_mm)
            (spec.height_mm - 2 * spec.frame_width_mm),
          glass_fill := spec.glass_color,
          frame_cmds := compound_frame_path_rect spec.width_mm
            spec.height_mm spec.frame_width_mm,
          frame_fill := spec.frame_color,
          bars := verticalBars spec ++
            (if 0 < spec.num_horizontal_bars then evenHBars spec
             else []) } := by
      simp only [generate_window_svg, hv, hb0, if_neg hnA]
    exact ⟨_, hgen, rfl⟩
  · exact path_arch_inner_extents_zero _ _ _ hFW0 (le_of_lt hw)
      (le_of_lt hh)
  · have hval1 : specValid
        { spec with horizontal_distribution_mode := "from_chord" } := by
      obtain ⟨a, b, c, d, e, f, g, h, i, j, -⟩ := hval
      exact ⟨a, b, c, d, e, f, g, h, i, j, Or.inr rfl⟩
    have hval2 : specValid
        { spec with horizontal_distribution_mode := "even" } := by
      obtain ⟨a, b, c, d, e, f, g, h, i, j, -⟩ := hval
      exact ⟨a, b, c, d, e, f, g, h, i, j, Or.inl rfl⟩
    have hv1 := (validate_none_iff _).mpr hval1
    have hv2 := (validate_none_iff _).mpr hval2
    have hb1 := hbars_even_ok
      { spec with horizontal_distribution_mode := "from_chord" }
      hh (fun hc => hnA hc.2)
    have hb2 := hbars_even_ok
      { spec with horizontal_distribution_mode := "even" }
      hh (fun hc => hnA hc.2)
    simp only [generate_window_svg, hv1, hv2, hb1, hb2, if_neg hnA]
    rfl
  · intro hb hbeq
    rw [hb0] at hbeq
    obtain rfl := Except.ok.inj hbeq
    obtain ⟨-, -, -, -, -, -, -, hNH, -⟩ := hval
    by_cases hN : 0 < spec.num_horizontal_bars
    · simp only [if_pos hN, evenHBars, List.length_map, List.length_range]
    · simp only [if_neg hN, List.length_nil]
      omega

/-- Witness for C8 at wOddCenter: the same rectangular spec generates
byte-identical documents in from_chord and even mode. -/
theorem claim_C8_witness :
    generate_window_svg
        { wOddCenter with horizontal_distribution_mode := "from_chord" } =
      generate_window_svg
        { wOddCenter with horizontal_distribution_mode := "even" } :=
  (claim_C8 wOddCenter
    (by norm_num [validate, wOddCenter, resolvedCWB]) rfl).2.2.1

/-- Witness for the amended C7 at wChordFit: every condition holds and
generation succeeds. -/
theorem claim_C7_witness :
    (generate_window_svg wChordFit).isOk = true := by
  refine (claim_C7_amended wChordFit).mpr
    ⟨(validate_none_iff _).mp
      (by norm_num [validate, wChordFit, resolvedCWB]), ?_⟩
  rintro -
  constructor
  · norm_num [chordSpan, startY, bottomY, chord_y, wChordFit]
  · norm_num [chordGap, chordSpan, startY, bottomY, chord_y, wChordFit]

/-- Claim C9 (confirmed): the generator is a pure function of the spec;
two successful generation calls on the same spec value return equal
documents. -/
theorem claim_C9 (spec : WindowSpec) (d1 d2 : SvgDoc)
    (h1 : generate_window_svg spec = Except.ok d1)
    (h2 : generate_window_svg spec = Except.ok d2) :
    d1 = d2 :=
  Except.ok.inj (h1.symm.trans h2)

/-- Witness for C9 at wTiny: generation yields docTiny, and two calls
agree on it. -/
theorem claim_C9_witness :
    generate_window_svg wTiny = Except.ok docTiny ∧ docTiny = docTiny := by
  have hv : validate wTiny = none := by
    norm_num [validate, wTiny, resolvedCWB]
  have hb : horizontalBarsE wTiny = Except.ok [] := by
    rw [hbars_even_ok wTiny (by norm_num [wTiny]) (by simp [wTiny])]
    norm_num [wTiny]
  have hgen : generate_window_svg wTiny = Except.ok docTiny := by
    simp only [generate_window_svg, hv, hb]
    norm_num [wTiny, docTiny, verticalBars]
  exact ⟨hgen, claim_C9 wTiny docTiny docTiny hgen hgen⟩

end WindowGen
